import Mathlib

/-!
Verification of the FLOAT translation backend (src/backend).

Shallow embedding of the session/protocol layer (`main.py`), the translation
gateway and audio conditioner (`translation_processor.py`) and the statistics
model (`models.py`).  PCM samples are embedded as exact rationals; Python
exceptions are embedded as an explicit error type threaded through `Except`.
External effects (the Hugging Face HTTP engine, base64 decoding, the scipy
filter stages whose numerics live outside the repository) are oracle
parameters collected in `Env`; everything else is translated directly from
the source.
-/

namespace FloatBackend

/-- Python exception values as raised in the source: `ProcessorError(msg)`
(`translation_processor.py:35`), plus the built-in exception classes the
source can raise (`TypeError`, `NameError`, `ValueError`). -/
inductive PyErr where
  | processorError (msg : String)
  | typeError (msg : String)
  | nameError (msg : String)
  | valueError (msg : String)
deriving DecidableEq

/-- `str(e)` for an exception value: the carried message. -/
def pyErrStr : PyErr → String
  | .processorError m => m
  | .typeError m => m
  | .nameError m => m
  | .valueError m => m

/-- `models.TranslationResult` restricted to the fields the processor sets
(`translation_processor.py:210-217`); `confidence` is always populated there. -/
structure TranslationResult where
  text : String
  isFinal : Bool
  confidence : ℚ
  sourceLanguage : String
  targetLanguage : String
  processingTimeMs : ℚ
deriving DecidableEq

/-- Outbound messages built in `main.py` (welcome message, `send_acknowledgment`,
translation response, `send_error_message`, keepalive).  The transcript variant
covers both `partial_transcript` and `final_transcript` via `isFinal`, matching
the `"final_transcript" if translation_result.is_final else "partial_transcript"`
selection at `main.py:385`.  Wall-clock `timestamp` and the echoed
`chunk_index`/`sequence_id` fields are omitted: no claim refers to them. -/
inductive OutMsg where
  | connected (sid : String)
  | ack (sid : String) (seq : Int)
  | transcript (sid : String) (isFinal : Bool) (text : String)
      (confidence : ℚ) (processingTimeMs : ℚ)
  | errorMsg (sid : String) (code : String) (emsg : String)
  | keepalive (sid : String)
deriving DecidableEq

/-- Whether a message is a partial- or final-transcript message. -/
def OutMsg.isTranscript : OutMsg → Bool
  | .transcript _ _ _ _ _ => true
  | _ => false

/-- An inbound JSON object after `json.loads`, with the fields the server
reads (`main.py:301-356`); absent keys are `none`. -/
structure RawMsg where
  sessionId : Option String
  messageType : Option String
  audioChunk : Option String
  chunkIndex : Option Int
  sequenceId : Option Int
  lpSource : Option String
  lpTarget : Option String
deriving DecidableEq

/-- Per-session metadata kept by `WebSocketManager` (`main.py:125-131`),
restricted to the fields the claims are about. -/
structure SessionMeta where
  chunksProcessed : Nat
  lastAcknowledgedSeq : Int
deriving DecidableEq

/-- Metadata of a freshly connected session (`main.py:125-131`). -/
def initMeta : SessionMeta := { chunksProcessed := 0, lastAcknowledgedSeq := 0 }

/-- Oracles for the effects the repository performs through libraries or the
network: `base64.b64decode`, the three scipy/numpy conditioning stages, and
one HTTP round-trip of the translation engine (indexed by attempt number).
Each returns `.error e` when the corresponding Python call would raise `e`. -/
structure Env where
  decodeB64 : String → Except PyErr (List Nat)
  noiseSuppression : List ℚ → Except PyErr (List ℚ)
  agc : List ℚ → Except PyErr (List ℚ)
  bandpass : List ℚ → Except PyErr (List ℚ)
  engine : Nat → Except PyErr (List Nat)

/-- A trivial environment: decoding yields the empty buffer, every
conditioning stage is the identity, the engine always succeeds. -/
def trivEnv : Env :=
  { decodeB64 := fun _ => .ok []
    noiseSuppression := fun s => .ok s
    agc := fun s => .ok s
    bandpass := fun s => .ok s
    engine := fun _ => .ok [] }

/-- One little-endian signed 16-bit sample from two bytes. -/
def toInt16 (lo hi : Nat) : Int :=
  let u := lo + 256 * hi
  if u < 32768 then (u : Int) else (u : Int) - 65536

/-- `np.frombuffer(audio_bytes, dtype=np.int16)`: `none` models the
`ValueError` numpy raises when the byte count is not a multiple of two. -/
def decodeInt16 : List Nat → Option (List Int)
  | [] => some []
  | [_] => none
  | lo :: hi :: rest => (decodeInt16 rest).map (fun l => toInt16 lo hi :: l)

/-- `.astype(np.float32) / 32768.0` on the decoded samples. -/
def toSamples (ints : List Int) : List ℚ := ints.map (fun i => (i : ℚ) / 32768)

/-- Truncation toward zero, as performed by `.astype(np.int16)` on floats. -/
def ratTruncToInt (q : ℚ) : Int := if 0 ≤ q then ⌊q⌋ else ⌈q⌉

/-- Two little-endian bytes of a signed 16-bit value (wrapping mod 2^16). -/
def int16ToBytes (n : Int) : List Nat :=
  let u := (Int.emod n 65536).toNat
  [u % 256, u / 256]

/-- `.tobytes()` of an int16 array. -/
def encodeInt16 (l : List Int) : List Nat :=
  l.foldr (fun n acc => int16ToBytes n ++ acc) []

/-- `(processed_audio * 32767.0).astype(np.int16).tobytes()`
(`translation_processor.py:258` and `:395`). -/
def fromSamples (samples : List ℚ) : List Nat :=
  encodeInt16 (samples.map (fun q => ratTruncToInt (q * 32767)))

/-- Peak amplitude `np.max(np.abs(audio))` of a sample buffer (0 if empty). -/
def peakAmplitude (l : List ℚ) : ℚ := l.foldr (fun x m => max |x| m) 0

/-- `_normalize_audio` (`translation_processor.py:301-309`): scale the peak to
0.8; an all-zero buffer is returned unchanged.  On an empty array `np.max`
raises a `ValueError`, modelled by the error branch. -/
def normalizeAudio (audio : List ℚ) : Except PyErr (List ℚ) :=
  if audio = [] then
    .error (.valueError "zero-size array to reduction operation maximum which has no identity")
  else
    let maxAmplitude := peakAmplitude audio
    if maxAmplitude = 0 then .ok audio
    else .ok (audio.map (fun x => x * (8 / 10 / maxAmplitude)))

/-- The body of the `try` block of `_preprocess_audio`
(`translation_processor.py:238-255`): decode 16-bit PCM, run noise
suppression, AGC and band-pass (all three enabled in `__init__`), then
normalize.  The error is the first exception some stage raises; decoding an
odd number of bytes raises numpy's `ValueError`. -/
def conditionStages (env : Env) (audioBytes : List Nat) : Except PyErr (List ℚ) :=
  match decodeInt16 audioBytes with
  | none => .error (.valueError "buffer size must be a multiple of element size")
  | some ints =>
    match env.noiseSuppression (toSamples ints) with
    | .error e => .error e
    | .ok s1 =>
      match env.agc s1 with
      | .error e => .error e
      | .ok s2 =>
        match env.bandpass s2 with
        | .error e => .error e
        | .ok s3 => normalizeAudio s3

/-- `_preprocess_audio` (`translation_processor.py:228-263`): run the stages
and re-encode; the surrounding `except` converts any stage exception into
`ProcessorError("Audio preprocessing failed: " + str(e))` — it re-raises, it
does not fall back to a pre-failure buffer. -/
def preprocessAudio (env : Env) (audioBytes : List Nat) : Except PyErr (List Nat) :=
  match conditionStages env audioBytes with
  | .error e => .error (.processorError ("Audio preprocessing failed: " ++ pyErrStr e))
  | .ok s4 => .ok (fromSamples s4)

/-- Whether some stage of `_preprocess_audio` raises on this input: the PCM
decode, one of the three oracle stages, or normalization. -/
def stageFailure (env : Env) (audioBytes : List Nat) : Bool :=
  match conditionStages env audioBytes with
  | .error _ => true
  | .ok _ => false

/-- `_apply_peak_safety_normalization` (`translation_processor.py:403-417`):
scale down to peak 0.95 only when the peak exceeds 0.95. -/
def applyPeakSafety (audio : List ℚ) : List ℚ :=
  if audio.length = 0 then audio
  else
    let peak := peakAmplitude audio
    if 95 / 100 < peak then audio.map (fun x => x * (95 / 100 / peak))
    else audio

/-- `_postprocess_audio` (`translation_processor.py:379-401`): decode, apply
the peak safety pass, re-encode; on failure return the original bytes. -/
def postprocessAudio (audioData : List Nat) : List Nat :=
  match decodeInt16 audioData with
  | none => audioData
  | some ints => fromSamples (applyPeakSafety (toSamples ints))

/-- `self.language_mapping` (`translation_processor.py:83-112`). -/
def languageMapping : List (String × String) :=
  [("en", "eng"), ("hi", "hin"), ("bn", "ben"), ("te", "tel"), ("ta", "tam"),
   ("mr", "mar"), ("gu", "guj"), ("kn", "kan"), ("ml", "mal"), ("pa", "pan"),
   ("ur", "urd"), ("as", "asm"), ("or", "ori"), ("sd", "snd"), ("zh", "zho"),
   ("ar", "ara"), ("fr", "fra"), ("de", "deu"), ("es", "spa"), ("pt", "por"),
   ("ru", "rus"), ("ja", "jpn"), ("ko", "kor")]

/-- `_is_language_supported` (`translation_processor.py:425-434`): both codes
must be keys of `language_mapping`. -/
def isLanguageSupported (src tgt : String) : Bool :=
  (languageMapping.any (fun p => p.1 == src)) && (languageMapping.any (fun p => p.1 == tgt))

/-- The request payload of `_translate_with_seamless_m4t` evaluates the bare
Python name `false` (`"do_sample": false`, `translation_processor.py:334`),
which is undefined; building the payload therefore raises a `NameError`. -/
def payloadDoSample : Except PyErr Bool :=
  .error (.nameError "name false is not defined")

/-- The retry loop of `_translate_with_seamless_m4t`
(`translation_processor.py:343-365`), parameterized by the engine oracle:
up to three attempts, `asyncio.sleep(1.0 * (attempt + 1))` between failures,
`ProcessorError` after the third failure.  Returns the outcome, the list of
backoff delays slept, and the number of attempts made. -/
def runAttempts (engine : Nat → Except PyErr (List Nat)) :
    Nat → Nat → Except PyErr (List Nat) × List ℚ × Nat
  | _, 0 => (.error (.processorError "Translation failed"), [], 0)
  | attempt, fuel + 1 =>
    match engine attempt with
    | .ok r => (.ok r, [], 1)
    | .error e =>
      if fuel = 0 then
        (.error (.processorError ("Translation failed after 3 attempts: " ++ pyErrStr e)), [], 1)
      else
        let rest := runAttempts engine (attempt + 1) fuel
        (rest.1, (1 : ℚ) * ((attempt : ℚ) + 1) :: rest.2.1, rest.2.2 + 1)

/-- `_translate_with_seamless_m4t` (`translation_processor.py:311-365`): build
the payload (which evaluates the undefined name `false`), then run the retry
loop with `max_retries = 3`.  Result, delays slept, attempts made. -/
def translateWithSeamlessM4t (engine : Nat → Except PyErr (List Nat))
    (audioData : List Nat) (src tgt : String) :
    Except PyErr (List Nat) × List ℚ × Nat :=
  match payloadDoSample with
  | .error e => (.error e, [], 0)
  | .ok _ => runAttempts engine 0 3

/-- `_extract_text_placeholder` (`translation_processor.py:419-423`). -/
def extractTextPlaceholder (audioData : List Nat) : String :=
  "Translated speech (" ++ toString audioData.length ++ " bytes)"

/-- The `except` ladder of `translate_audio` (`translation_processor.py:222-226`):
a `ProcessorError` is re-raised unchanged, anything else is wrapped. -/
def wrapTranslateErr : PyErr → PyErr
  | .processorError m => .processorError m
  | e => .processorError ("S2S translation failed: " ++ pyErrStr e)

/-- `translate_audio` (`translation_processor.py:153-226`): loaded check,
language check, base64 decode, preprocessing, engine call, post-processing,
result construction (`confidence = 0.85`, `is_final = True`).  The second
component counts the network attempts made against the engine. -/
def translateAudio (env : Env) (isLoaded : Bool) (elapsedMs : ℚ)
    (audioData src tgt sid : String) : Except PyErr TranslationResult × Nat :=
  if isLoaded = false then
    (.error (.processorError "SeamlessM4T processor not initialized"), 0)
  else if isLanguageSupported src tgt = false then
    (.error (.processorError ("Unsupported language pair: " ++ src ++ " -> " ++ tgt)), 0)
  else
    match env.decodeB64 audioData with
    | .error e => (.error (wrapTranslateErr e), 0)
    | .ok audioBytes =>
      match preprocessAudio env audioBytes with
      | .error e => (.error (wrapTranslateErr e), 0)
      | .ok pre =>
        match translateWithSeamlessM4t env.engine pre src tgt with
        | (.error e, _, attempts) => (.error (wrapTranslateErr e), attempts)
        | (.ok translated, _, attempts) =>
          let finalAudio := postprocessAudio translated
          (.ok { text := extractTextPlaceholder finalAudio
                 isFinal := true
                 confidence := 85 / 100
                 sourceLanguage := src
                 targetLanguage := tgt
                 processingTimeMs := elapsedMs }, attempts)

/-- Parameter names of `translate_audio` (`translation_processor.py:153-159`). -/
def translateAudioParams : List String :=
  ["audio_data", "source_language", "target_language", "session_id"]

/-- Keyword arguments passed at the call site in `process_audio_chunk`
(`main.py:372-378`). -/
def audioChunkCallKwargs : List String :=
  ["audio_data", "source_language", "target_language", "session_id", "sequence_id"]

/-- Whether every keyword argument of the call matches a parameter of the
callee; if not, Python raises a `TypeError` at the call. -/
def kwargsAccepted : Bool :=
  audioChunkCallKwargs.all (fun k => translateAudioParams.contains k)

/-- Semantics of the call `translation_processor.translate_audio(...)` at
`main.py:372-378`: if the keyword arguments are accepted the callee body
runs, otherwise the call itself raises `TypeError`. -/
def translateCallSem (env : Env) (isLoaded : Bool) (elapsedMs : ℚ)
    (audioData src tgt sid : String) : Except PyErr TranslationResult :=
  if kwargsAccepted then (translateAudio env isLoaded elapsedMs audioData src tgt sid).1
  else .error (.typeError "translate_audio() got an unexpected keyword argument sequence_id")

/-- The translation-call semantics applied to one inbound unit, with the
argument extraction of `process_audio_chunk` (`main.py:353-378`): payload from
`audio_chunk`, language defaults `en` and `hi`. -/
def actualSem (env : Env) (isLoaded : Bool) (elapsedMs : ℚ) (sid : String)
    (m : RawMsg) : Except PyErr TranslationResult :=
  translateCallSem env isLoaded elapsedMs (m.audioChunk.getD "")
    (m.lpSource.getD "en") (m.lpTarget.getD "hi") sid

/-- `WebSocketManager.send_acknowledgment` (`main.py:171-184`): store the
acknowledged sequence id in the session metadata and emit the ack message. -/
def sendAcknowledgment (sid : String) (meta : SessionMeta) (seq : Int) :
    SessionMeta × OutMsg :=
  ({ meta with lastAcknowledgedSeq := seq }, .ack sid seq)

/-- `process_audio_chunk` (`main.py:348-429`) with the outcome of the
translation call as a parameter: missing/empty payload raises `ValueError`
(reported as `UNEXPECTED_ERROR`); otherwise ack first (when a `sequence_id`
is present), increment the chunk counter, then report the translation outcome
as a transcript, a `TRANSLATION_ERROR`, or an `UNEXPECTED_ERROR`. -/
def processAudioChunkWith (outcome : Except PyErr TranslationResult)
    (elapsedMs : ℚ) (sid : String) (m : RawMsg) (meta : SessionMeta) :
    List OutMsg × SessionMeta :=
  if (m.audioChunk.getD "").length = 0 then
    ([.errorMsg sid "UNEXPECTED_ERROR" "Audio chunk data is required"], meta)
  else
    let ackStep :=
      match m.sequenceId with
      | some seq =>
        let (meta2, ackMsg) := sendAcknowledgment sid meta seq
        ([ackMsg], meta2)
      | none => ([], meta)
    let meta3 := { ackStep.2 with chunksProcessed := ackStep.2.chunksProcessed + 1 }
    match outcome with
    | .ok r =>
        (ackStep.1 ++ [.transcript sid r.isFinal r.text r.confidence elapsedMs], meta3)
    | .error (.processorError em) =>
        (ackStep.1 ++ [.errorMsg sid "TRANSLATION_ERROR" em], meta3)
    | .error e =>
        (ackStep.1 ++ [.errorMsg sid "UNEXPECTED_ERROR" (pyErrStr e)], meta3)

/-- `validate_inbound_message` (`main.py:432-455`): `session_id` and
`audio_chunk` present, session id a well-formed unique identifier (checked by
the oracle `uuidOk` modelling `uuid.UUID`), payload a non-empty string. -/
def validateInboundMessage (uuidOk : String → Bool) (m : RawMsg) : Bool :=
  match m.sessionId, m.audioChunk with
  | some sid, some chunk => uuidOk sid && !(chunk.length == 0)
  | _, _ => false

/-- Result of `json.loads` on one text frame: a parse failure or an object. -/
inductive ParseResult where
  | malformed
  | parsed (m : RawMsg)
deriving DecidableEq

/-- `process_websocket_message` (`main.py:301-345`): parse failure yields
`JSON_PARSE_ERROR`, an invalid structure yields `INVALID_MESSAGE_FORMAT`
(both non-fatal), a unit whose `message_type` defaults to `audio_chunk` is
processed, keepalive and unknown types produce no output. -/
def processWebsocketMessage (uuidOk : String → Bool)
    (sem : RawMsg → Except PyErr TranslationResult) (elapsedMs : ℚ)
    (sid : String) : ParseResult → SessionMeta → List OutMsg × SessionMeta
  | .malformed, meta => ([.errorMsg sid "JSON_PARSE_ERROR" "Invalid JSON format"], meta)
  | .parsed m, meta =>
    if validateInboundMessage uuidOk m = false then
      ([.errorMsg sid "INVALID_MESSAGE_FORMAT" "Message format is invalid"], meta)
    else if m.messageType.getD "audio_chunk" = "audio_chunk" then
      processAudioChunkWith (sem m) elapsedMs sid m meta
    else ([], meta)

/-- One observable event of the receive loop at `main.py:250-283`: a text
frame (already passed through `json.loads`), a 30-second receive timeout, or
a transport disconnect. -/
inductive WsEvent where
  | text (pd : ParseResult)
  | timeoutEvt
  | disconnectEvt
deriving DecidableEq

/-- The main message loop of `websocket_endpoint` (`main.py:250-283`):
timeout emits a keepalive and continues, disconnect breaks the loop, a text
frame is processed by `process_websocket_message` and the loop continues. -/
def wsLoop (uuidOk : String → Bool) (sem : RawMsg → Except PyErr TranslationResult)
    (elapsedMs : ℚ) (sid : String) : List WsEvent → SessionMeta → List OutMsg
  | [], _ => []
  | .timeoutEvt :: es, meta => .keepalive sid :: wsLoop uuidOk sem elapsedMs sid es meta
  | .disconnectEvt :: _, _ => []
  | .text pd :: es, meta =>
    (processWebsocketMessage uuidOk sem elapsedMs sid pd meta).1 ++
      wsLoop uuidOk sem elapsedMs sid es
        (processWebsocketMessage uuidOk sem elapsedMs sid pd meta).2

/-- `websocket_endpoint` (`main.py:209-298`): an ill-formed session id is
rejected at the handshake with no message sent; otherwise the session is
registered, the `connected` message is sent, and the loop runs. -/
def wsEndpoint (uuidOk : String → Bool) (sem : RawMsg → Except PyErr TranslationResult)
    (elapsedMs : ℚ) (sid : String) (events : List WsEvent) : List OutMsg :=
  if uuidOk sid = true then
    .connected sid :: wsLoop uuidOk sem elapsedMs sid events initMeta
  else []

/-- The `seconds` attribute of a Python `timedelta` of the given non-negative
total length: the seconds component within the current day. -/
def timedeltaSecondsComponent (totalSeconds : Nat) : Nat := totalSeconds % 86400

/-- The eviction test of `session_cleanup_task` (`main.py:486`):
`(current_time - session_info.last_activity).seconds > 300`. -/
def sessionIsInactive (idleSeconds : Nat) : Bool :=
  300 < timedeltaSecondsComponent idleSeconds

/-- One sweep of `session_cleanup_task` (`main.py:479-496`) over sessions
given as (id, idle time in seconds): the ids selected for eviction. -/
def cleanupSweep (sessions : List (String × Nat)) : List String :=
  (sessions.filter (fun p => sessionIsInactive p.2)).map (fun p => p.1)

/-- `ConnectionStats.get_success_rate` (`models.py:124-128`). -/
def getSuccessRate (successful total : Nat) : ℚ :=
  if total = 0 then 0 else ((successful : ℚ) / (total : ℚ)) * 100

/-- The end-to-end unit of the spec: `sequence_id` 1, a non-empty base64
16-bit PCM silence payload, language pair en to hi. -/
def c1Msg (sid : String) : RawMsg :=
  { sessionId := some sid, messageType := some "audio_chunk"
    audioChunk := some "AAAAAAAAAAA=", chunkIndex := some 0
    sequenceId := some 1, lpSource := some "en", lpTarget := some "hi" }

/-- An inbound unit with every field absent (fails validation). -/
def c2BadMsg : RawMsg :=
  { sessionId := none, messageType := none, audioChunk := none
    chunkIndex := none, sequenceId := none, lpSource := none, lpTarget := none }

/-- A valid audio-chunk unit with sequence id 7 and a non-empty payload. -/
def c3Msg : RawMsg :=
  { sessionId := some "s", messageType := some "audio_chunk"
    audioChunk := some "QUJD", chunkIndex := some 0
    sequenceId := some 7, lpSource := some "en", lpTarget := some "hi" }

/-- A translation-call semantics that always fails with a `ProcessorError`. -/
def c4Sem : RawMsg → Except PyErr TranslationResult :=
  fun _ => .error (.processorError "engine down")

/-- A valid audio-chunk unit with the given sequence id. -/
def c4Msg (seq : Int) : RawMsg :=
  { sessionId := some "s", messageType := some "audio_chunk"
    audioChunk := some "QUJD", chunkIndex := some 0
    sequenceId := some seq, lpSource := some "en", lpTarget := some "hi" }

/-- An environment whose noise-suppression stage raises. -/
def failEnv : Env :=
  { trivEnv with noiseSuppression := fun _ => .error (.valueError "stage failed") }

/-! ## Helper lemmas -/

theorem peakAmplitude_nonneg (l : List ℚ) : 0 ≤ peakAmplitude l := by
  induction l with
  | nil => simp [peakAmplitude]
  | cons a tl ih =>
    simp only [peakAmplitude, List.foldr_cons] at *
    exact le_trans ih (le_max_right _ _)

theorem abs_le_peakAmplitude {x : ℚ} {l : List ℚ} (h : x ∈ l) :
    |x| ≤ peakAmplitude l := by
  induction l with
  | nil => cases h
  | cons a tl ih =>
    simp only [peakAmplitude, List.foldr_cons] at *
    rcases List.mem_cons.mp h with h1 | h2
    · subst h1; exact le_max_left _ _
    · exact le_trans (ih h2) (le_max_right _ _)

theorem peakAmplitude_map_mul (l : List ℚ) {c : ℚ} (hc : 0 ≤ c) :
    peakAmplitude (l.map (fun x => x * c)) = peakAmplitude l * c := by
  induction l with
  | nil => simp [peakAmplitude]
  | cons a tl ih =>
    simp only [List.map_cons, peakAmplitude, List.foldr_cons] at *
    rw [ih, abs_mul, abs_of_nonneg hc, max_mul_of_nonneg _ _ hc]

theorem applyPeakSafety_of_peak_le {l : List ℚ} (h : peakAmplitude l ≤ 95 / 100) :
    applyPeakSafety l = l := by
  unfold applyPeakSafety
  split
  · rfl
  · rw [if_neg (not_lt.mpr h)]

theorem applyPeakSafety_bound (l : List ℚ) {x : ℚ} (hx : x ∈ applyPeakSafety l) :
    |x| ≤ 95 / 100 := by
  by_cases hlen : l.length = 0
  · rw [List.length_eq_zero] at hlen
    subst hlen
    simp [applyPeakSafety] at hx
  · unfold applyPeakSafety at hx
    rw [if_neg hlen] at hx
    by_cases hp : 95 / 100 < peakAmplitude l
    · rw [if_pos hp] at hx
      rcases List.mem_map.mp hx with ⟨y, hy, rfl⟩
      have hpk : 0 < peakAmplitude l := lt_trans (by norm_num) hp
      have hc : 0 ≤ 95 / 100 / peakAmplitude l := le_of_lt (div_pos (by norm_num) hpk)
      have h1 : |y * (95 / 100 / peakAmplitude l)| = |y| * (95 / 100 / peakAmplitude l) := by
        rw [abs_mul, abs_of_nonneg hc]
      rw [h1]
      calc |y| * (95 / 100 / peakAmplitude l)
          ≤ peakAmplitude l * (95 / 100 / peakAmplitude l) :=
            mul_le_mul_of_nonneg_right (abs_le_peakAmplitude hy) hc
        _ = 95 / 100 := by
            field_simp
            ring
    · rw [if_neg hp] at hx
      exact le_trans (abs_le_peakAmplitude hx) (not_lt.mp hp)

theorem applyPeakSafety_idem (l : List ℚ) :
    applyPeakSafety (applyPeakSafety l) = applyPeakSafety l := by
  by_cases hp : peakAmplitude l ≤ 95 / 100
  · rw [applyPeakSafety_of_peak_le hp, applyPeakSafety_of_peak_le hp]
  · push_neg at hp
    have h0 : ¬l.length = 0 := by
      intro h
      rw [List.length_eq_zero] at h
      subst h
      simp only [peakAmplitude, List.foldr_nil] at hp
      exact absurd hp (by norm_num)
    have hpk : 0 < peakAmplitude l := lt_trans (by norm_num) hp
    have hL : applyPeakSafety l = l.map (fun x => x * (95 / 100 / peakAmplitude l)) := by
      unfold applyPeakSafety
      rw [if_neg h0, if_pos hp]
    have hpeak2 : peakAmplitude (applyPeakSafety l) = 95 / 100 := by
      rw [hL, peakAmplitude_map_mul l (le_of_lt (div_pos (by norm_num) hpk))]
      field_simp
      ring
    exact applyPeakSafety_of_peak_le (le_of_eq hpeak2)

theorem processAudioChunkWith_shape (outcome : Except PyErr TranslationResult)
    (elapsedMs : ℚ) (sid : String) (m : RawMsg) (meta : SessionMeta) (seq : Int)
    (hseq : m.sequenceId = some seq) (hlen : (m.audioChunk.getD "").length ≠ 0) :
    ∃ t : OutMsg,
      (processAudioChunkWith outcome elapsedMs sid m meta).1 = [.ack sid seq, t] := by
  unfold processAudioChunkWith
  rw [if_neg hlen, hseq]
  rcases outcome with e | r
  · rcases e with em | em | em | em
    · exact ⟨_, rfl⟩
    · exact ⟨_, rfl⟩
    · exact ⟨_, rfl⟩
    · exact ⟨_, rfl⟩
  · exact ⟨_, rfl⟩

/-! ## Claim theorems -/

/-- Claim C9: the safety pass on engine output never produces a sample
magnitude exceeding 0.95 of full scale; a buffer whose peak is already at or
below 0.95 is returned unchanged; and the pass is idempotent (samples
embedded as exact rationals). -/
theorem c9_safety_pass :
    (∀ (l : List ℚ) (x : ℚ), x ∈ applyPeakSafety l → |x| ≤ 95 / 100) ∧
    (∀ l : List ℚ, peakAmplitude l ≤ 95 / 100 → applyPeakSafety l = l) ∧
    (∀ l : List ℚ, applyPeakSafety (applyPeakSafety l) = applyPeakSafety l) :=
  ⟨fun _ _ hx => applyPeakSafety_bound _ hx,
   fun _ h => applyPeakSafety_of_peak_le h,
   fun l => applyPeakSafety_idem l⟩

/-- Claim C9 witness: the bound at the scaled buffer `[1]`, pass-through at
`[1/2]`, idempotence at `[1]`. -/
theorem c9_safety_pass_witness :
    |(19 : ℚ) / 20| ≤ 95 / 100 ∧
    applyPeakSafety [(1 : ℚ) / 2] = [(1 : ℚ) / 2] ∧
    applyPeakSafety (applyPeakSafety [(1 : ℚ)]) = applyPeakSafety [(1 : ℚ)] :=
  ⟨c9_safety_pass.1 [(1 : ℚ)] ((19 : ℚ) / 20)
      (by norm_num [applyPeakSafety, peakAmplitude]),
   c9_safety_pass.2.1 [(1 : ℚ) / 2]
      (by norm_num [peakAmplitude, abs_of_nonneg]),
   c9_safety_pass.2.2 [(1 : ℚ)]⟩

/-- Claim C10: the success-rate computation is total: zero total translations
yields 0, otherwise successful/total scaled to a percentage (stated via the
product form to avoid restating the division), and the result is bounded. -/
theorem c10_success_rate_total :
    ∀ successful total : Nat,
      getSuccessRate successful 0 = 0 ∧
      (total ≠ 0 →
        getSuccessRate successful total = ((successful : ℚ) / (total : ℚ)) * 100) ∧
      (total ≠ 0 →
        getSuccessRate successful total * (total : ℚ) = (successful : ℚ) * 100) ∧
      0 ≤ getSuccessRate successful total ∧
      (successful ≤ total → getSuccessRate successful total ≤ 100) := by
  intro s t
  refine ⟨by simp [getSuccessRate], fun h => by simp [getSuccessRate, h], fun h => ?_, ?_, fun hst => ?_⟩
  · have ht : ((t : ℚ)) ≠ 0 := Nat.cast_ne_zero.mpr h
    simp only [getSuccessRate, if_neg h]
    field_simp
  · unfold getSuccessRate
    split
    · norm_num
    · positivity
  · unfold getSuccessRate
    split
    · norm_num
    · rename_i h
      have ht : (0 : ℚ) < (t : ℚ) := by
        exact_mod_cast Nat.pos_of_ne_zero h
      have h1 : ((s : ℚ)) / (t : ℚ) ≤ 1 :=
        div_le_one_of_le₀ (by exact_mod_cast hst) (le_of_lt ht)
      calc ((s : ℚ)) / (t : ℚ) * 100 ≤ 1 * 100 :=
            mul_le_mul_of_nonneg_right h1 (by norm_num)
        _ = 100 := by norm_num

/-- Claim C10 witness: the computation at 3 successes out of 0 and out of 4. -/
theorem c10_success_rate_witness :
    getSuccessRate 3 0 = 0 ∧
    getSuccessRate 3 4 = ((3 : ℚ) / (4 : ℚ)) * 100 ∧
    getSuccessRate 3 4 ≤ 100 :=
  ⟨(c10_success_rate_total 3 0).1,
   (c10_success_rate_total 3 4).2.1 (by norm_num),
   (c10_success_rate_total 3 4).2.2.2.2 (by norm_num)⟩

/-- Claim C7: the eviction test uses the `seconds` component of the timedelta
(the idle time modulo one day), so a session idle for exactly 86400 seconds —
far beyond the 300-second threshold — is not selected by the sweep. -/
theorem c7_idle_eviction_day_wrap :
    300 < 86400 ∧ sessionIsInactive 86400 = false ∧ cleanupSweep [("s", 86400)] = [] :=
  ⟨by norm_num, rfl, rfl⟩

/-- Claim C2 counterexample: acknowledging sequence 3 while the stored
last-acknowledged sequence is 5 strictly decreases the stored value,
contradicting monotonic non-decrease. -/
theorem c2_counterexample :
    (sendAcknowledgment "s" { chunksProcessed := 0, lastAcknowledgedSeq := 5 } 3).1.lastAcknowledgedSeq
      < ({ chunksProcessed := 0, lastAcknowledgedSeq := 5 } : SessionMeta).lastAcknowledgedSeq := by
  decide

/-- Claim C2 amended: an ack for any sequence number is accepted without
error and overwrites the stored last-acknowledged value with that number
(so a smaller value decreases it); and a frame that fails validation leaves
the session metadata unchanged. -/
theorem c2_amended :
    (∀ (sid : String) (meta : SessionMeta) (seq : Int),
      (sendAcknowledgment sid meta seq).1.lastAcknowledgedSeq = seq ∧
      (sendAcknowledgment sid meta seq).2 = .ack sid seq) ∧
    (∀ (uuidOk : String → Bool) (sem : RawMsg → Except PyErr TranslationResult)
      (elapsedMs : ℚ) (sid : String) (m : RawMsg) (meta : SessionMeta),
      validateInboundMessage uuidOk m = false →
      (processWebsocketMessage uuidOk sem elapsedMs sid (.parsed m) meta).2 = meta) := by
  constructor
  · intro sid meta seq
    exact ⟨rfl, rfl⟩
  · intro uuidOk sem elapsedMs sid m meta h
    simp [processWebsocketMessage, h]

/-- Claim C2 amended witness: overwrite at sequence 7, and an invalid frame
leaving the metadata unchanged. -/
theorem c2_amended_witness :
    (sendAcknowledgment "s" initMeta 7).1.lastAcknowledgedSeq = 7 ∧
    (processWebsocketMessage (fun _ => true) c4Sem 0 "s" (.parsed c2BadMsg) initMeta).2 = initMeta :=
  ⟨(c2_amended.1 "s" initMeta 7).1,
   c2_amended.2 (fun _ => true) c4Sem 0 "s" c2BadMsg initMeta rfl⟩

/-- Claim C5: for every engine behaviour, the translation call fails while
building the request payload (the undefined Python name `false` in the
`do_sample` field) — zero attempts are made, no backoff delay is slept, and
the error raised is a `NameError`, not the engine-exhausted `ProcessorError`
of the retry loop. -/
theorem c5_payload_name_error :
    ∀ (engine : Nat → Except PyErr (List Nat)) (audioData : List Nat) (src tgt : String),
      translateWithSeamlessM4t engine audioData src tgt =
        (.error (.nameError "name false is not defined"), [], 0) := by
  intro engine audioData src tgt
  rfl

/-- The retry loop itself (never reached by the source as written): when every
attempt fails, exactly 3 attempts are made with the strictly increasing delays
1 and 2, and the engine-exhausted `ProcessorError` is raised. -/
theorem runAttempts_exhausted (engine : Nat → Except PyErr (List Nat)) (e : PyErr)
    (h : ∀ n, engine n = .error e) :
    runAttempts engine 0 3 =
      (.error (.processorError ("Translation failed after 3 attempts: " ++ pyErrStr e)),
        [1, 2], 3) := by
  simp [runAttempts, h 0, h 1, h 2]
  norm_num

/-- Claim C6: an unsupported language pair is rejected with the
unsupported-language `ProcessorError` before any work, and zero network
calls are made against the engine. -/
theorem c6_unsupported_language_no_network :
    ∀ (env : Env) (elapsedMs : ℚ) (audioData src tgt sid : String),
      isLanguageSupported src tgt = false →
      translateAudio env true elapsedMs audioData src tgt sid =
        (.error (.processorError ("Unsupported language pair: " ++ src ++ " -> " ++ tgt)), 0) := by
  intro env elapsedMs audioData src tgt sid h
  simp [translateAudio, h]

/-- Claim C6 witness: source code `xx` is unsupported and the call makes zero
network attempts. -/
theorem c6_unsupported_language_witness :
    isLanguageSupported "xx" "hi" = false ∧
    translateAudio trivEnv true 0 "AAAA" "xx" "hi" "s" =
      (.error (.processorError ("Unsupported language pair: " ++ "xx" ++ " -> " ++ "hi")), 0) :=
  ⟨rfl, c6_unsupported_language_no_network trivEnv 0 "AAAA" "xx" "hi" "s" rfl⟩

/-- Claim C8 counterexample: a one-byte buffer makes the PCM decode fail, and
the conditioner raises `ProcessorError` instead of returning a buffer. -/
theorem c8_counterexample :
    preprocessAudio trivEnv [0] =
      .error (.processorError "Audio preprocessing failed: buffer size must be a multiple of element size") :=
  rfl

/-- Claim C8 amended: when any stage of the conditioning pipeline fails
internally, `_preprocess_audio` raises a `ProcessorError` (aborting the
chunk) rather than returning the best pre-failure buffer. -/
theorem c8_amended :
    ∀ (env : Env) (audioBytes : List Nat),
      stageFailure env audioBytes = true →
      ∃ m, preprocessAudio env audioBytes = .error (.processorError m) := by
  intro env audioBytes h
  unfold stageFailure at h
  unfold preprocessAudio
  cases hc : conditionStages env audioBytes with
  | error e =>
    exact ⟨_, rfl⟩
  | ok s4 =>
    rw [hc] at h
    simp at h

/-- Claim C8 amended witness: a failing noise-suppression stage on a
well-formed two-byte buffer yields a `ProcessorError`. -/
theorem c8_amended_witness :
    stageFailure failEnv [0, 0] = true ∧
    ∃ m, preprocessAudio failEnv [0, 0] = .error (.processorError m) :=
  ⟨rfl, c8_amended failEnv [0, 0] rfl⟩

/-- Claim C3: for every translation-call outcome, a valid audio-chunk unit
carrying a sequence id is acknowledged first: the ack with the matching
sequence id is the head of the emitted messages (so it precedes the
translation dispatch and any transcript), and every transcript message sits
at a strictly later position. -/
theorem c3_ack_before_transcript :
    ∀ (outcome : Except PyErr TranslationResult) (elapsedMs : ℚ) (sid : String)
      (m : RawMsg) (meta : SessionMeta) (seq : Int),
      m.sequenceId = some seq →
      (m.audioChunk.getD "").length ≠ 0 →
      (processAudioChunkWith outcome elapsedMs sid m meta).1.head? = some (.ack sid seq) ∧
      ∀ (i : Nat) (hi : i < (processAudioChunkWith outcome elapsedMs sid m meta).1.length),
        ((processAudioChunkWith outcome elapsedMs sid m meta).1.get ⟨i, hi⟩).isTranscript = true →
        0 < i := by
  intro outcome elapsedMs sid m meta seq hseq hlen
  obtain ⟨t, ht⟩ := processAudioChunkWith_shape outcome elapsedMs sid m meta seq hseq hlen
  rw [ht]
  refine ⟨rfl, ?_⟩
  intro i hi hT
  cases i with
  | zero => simp [OutMsg.isTranscript] at hT
  | succ n => exact Nat.succ_pos n

/-- Claim C3 witness: a successful outcome on a concrete valid unit with
sequence id 7 — the ack heads the emitted messages. -/
theorem c3_ack_before_transcript_witness :
    (processAudioChunkWith
        (.ok { text := "t", isFinal := true, confidence := 85 / 100,
               sourceLanguage := "en", targetLanguage := "hi", processingTimeMs := 1 })
        1 "s" c3Msg initMeta).1.head? = some (.ack "s" 7) :=
  (c3_ack_before_transcript _ 1 "s" c3Msg initMeta 7 rfl (by decide)).1

/-- Claim C4 counterexample: with a translation call that fails with a
`ProcessorError` on every chunk, a session receiving two valid chunks gets
`TRANSLATION_ERROR` for the first chunk and the second chunk is still
processed (acknowledged and reported) — the connection is not terminated. -/
theorem c4_counterexample :
    wsEndpoint (fun _ => true) c4Sem 0 "s"
        [.text (.parsed (c4Msg 1)), .text (.parsed (c4Msg 2))] =
      [.connected "s", .ack "s" 1, .errorMsg "s" "TRANSLATION_ERROR" "engine down",
       .ack "s" 2, .errorMsg "s" "TRANSLATION_ERROR" "engine down"] := by
  rfl

/-- Claim C4 amended: on a `ProcessorError`-class translation failure the
server emits an `error` message with code `TRANSLATION_ERROR`, but the
connection is not terminated: the message loop continues and subsequent
inbound events are still processed. -/
theorem c4_amended :
    ∀ (uuidOk : String → Bool) (sem : RawMsg → Except PyErr TranslationResult)
      (elapsedMs : ℚ) (sid : String) (m : RawMsg) (meta : SessionMeta)
      (em : String) (es : List WsEvent),
      sem m = .error (.processorError em) →
      validateInboundMessage uuidOk m = true →
      m.messageType.getD "audio_chunk" = "audio_chunk" →
      (m.audioChunk.getD "").length ≠ 0 →
      ∃ (acks : List OutMsg) (meta2 : SessionMeta),
        wsLoop uuidOk sem elapsedMs sid (.text (.parsed m) :: es) meta =
          acks ++ [.errorMsg sid "TRANSLATION_ERROR" em] ++
            wsLoop uuidOk sem elapsedMs sid es meta2 := by
  intro uuidOk sem elapsedMs sid m meta em es hsem hval htype hlen
  have hstep : processWebsocketMessage uuidOk sem elapsedMs sid (.parsed m) meta =
      processAudioChunkWith (sem m) elapsedMs sid m meta := by
    simp only [processWebsocketMessage]
    rw [hval, htype]
    simp
  simp only [wsLoop]
  rw [hstep, hsem]
  unfold processAudioChunkWith
  rw [if_neg hlen]
  cases hsq : m.sequenceId with
  | none => exact ⟨[], _, rfl⟩
  | some seq => exact ⟨[.ack sid seq], _, rfl⟩

/-- Claim C4 amended witness: after the failing first chunk the loop value is
the ack and the `TRANSLATION_ERROR` message followed by the (empty) rest of
the loop. -/
theorem c4_amended_witness :
    ∃ (acks : List OutMsg) (meta2 : SessionMeta),
      wsLoop (fun _ => true) c4Sem 0 "s" [.text (.parsed (c4Msg 1))] initMeta =
        acks ++ [.errorMsg "s" "TRANSLATION_ERROR" "engine down"] ++
          wsLoop (fun _ => true) c4Sem 0 "s" [] meta2 :=
  c4_amended (fun _ => true) c4Sem 0 "s" (c4Msg 1) initMeta "engine down" []
    rfl rfl rfl (by decide)

/-- Claim C1: the end-to-end run on a fresh session with a valid id and one
valid silence chunk with sequence id 1 and language pair en to hi produces
`connected`, then `ack 1`, and then — because `process_audio_chunk` passes
the keyword argument `sequence_id` that `translate_audio` does not accept —
an `UNEXPECTED_ERROR` error message from the resulting `TypeError`; no
transcript message is ever emitted. -/
theorem c1_endpoint_run :
    ∀ (uuidOk : String → Bool) (env : Env) (elapsedMs : ℚ) (sid : String),
      uuidOk sid = true →
      wsEndpoint uuidOk (actualSem env true elapsedMs sid) elapsedMs sid
          [.text (.parsed (c1Msg sid))] =
        [.connected sid, .ack sid 1,
         .errorMsg sid "UNEXPECTED_ERROR"
           "translate_audio() got an unexpected keyword argument sequence_id"] ∧
      ∀ x ∈ wsEndpoint uuidOk (actualSem env true elapsedMs sid) elapsedMs sid
          [.text (.parsed (c1Msg sid))], x.isTranscript = false := by
  intro uuidOk env elapsedMs sid h
  have hval : validateInboundMessage uuidOk (c1Msg sid) = true := by
    simp only [validateInboundMessage, c1Msg, h]
    decide
  have hk : kwargsAccepted = false := by decide
  have hsem : actualSem env true elapsedMs sid (c1Msg sid) =
      .error (.typeError "translate_audio() got an unexpected keyword argument sequence_id") := by
    unfold actualSem translateCallSem
    rw [hk]
    simp
  have hstep : processWebsocketMessage uuidOk (actualSem env true elapsedMs sid)
      elapsedMs sid (.parsed (c1Msg sid)) initMeta =
      processAudioChunkWith (actualSem env true elapsedMs sid (c1Msg sid))
        elapsedMs sid (c1Msg sid) initMeta := by
    simp only [processWebsocketMessage]
    rw [hval]
    simp [c1Msg]
  have hfull : wsEndpoint uuidOk (actualSem env true elapsedMs sid) elapsedMs sid
      [.text (.parsed (c1Msg sid))] =
      [.connected sid, .ack sid 1,
       .errorMsg sid "UNEXPECTED_ERROR"
         "translate_audio() got an unexpected keyword argument sequence_id"] := by
    unfold wsEndpoint
    rw [if_pos h]
    simp only [wsLoop]
    rw [hstep, hsem]
    rfl
  refine ⟨hfull, ?_⟩
  rw [hfull]
  intro x hx
  simp only [List.mem_cons, List.not_mem_nil, or_false] at hx
  rcases hx with rfl | rfl | rfl <;> rfl

/-- Claim C1 witness: the run at concrete instances of the oracles. -/
theorem c1_endpoint_run_witness :
    wsEndpoint (fun _ => true) (actualSem trivEnv true 0 "s") 0 "s"
        [.text (.parsed (c1Msg "s"))] =
      [.connected "s", .ack "s" 1,
       .errorMsg "s" "UNEXPECTED_ERROR"
         "translate_audio() got an unexpected keyword argument sequence_id"] :=
  (c1_endpoint_run (fun _ => true) trivEnv 0 "s" rfl).1

end FloatBackend
